import Mathlib

/-!
Verification of the procedural chain-ring animation renderer (`src/main.rs`).

Modelling conventions:
* The frame-pacing arithmetic (`step`, `frame_count`, `rotation`) is done by the
  source in IEEE-754 `f32`.  It is embedded here over `ℚ`: every `f32` value is
  the exact rational it denotes, and each arithmetic operation rounds its exact
  rational result to 24 bits of significand with round-to-nearest, ties-to-even
  (`fround`).  The rational plumbing is written with `Rat.divInt` and explicit
  numerator/denominator integer arithmetic so that everything evaluates inside
  the kernel.  The model covers normal-range, finite, nonzero operands, which is
  the regime of every claim; infinities, NaNs and subnormals do not arise for
  in-contract inputs (positive fps, bpm, nonzero radii).
* The path geometry (`point_in_circle`, Bezier control points) is embedded over
  `ℝ` with exact `Real.pi`, `Real.cos`, `Real.sin` standing for the `f32`
  constants and intrinsics.  All structural claims (segment kinds and counts,
  draw order, transform stack) are independent of the numeric values of the
  coordinates; the one value-level geometry claim (the `side` length) is
  settled in exact real arithmetic, where the discrepancy is a factor 4/3.
* The canvas is a state machine: a current transform (a list of translate and
  rotate operations), a save/restore stack of transforms, and the list of
  recorded draw commands, each tagged with the transform active when it was
  issued.  Fallible code (the `panic!` on an invalid vertex index, the `usize`
  subtraction overflow) is embedded with `Except String`.
-/

/-! ### A tiny exact model of `f32` arithmetic over `ℚ` -/

/-- Base-2 logarithm of `n` (floor), by fuel recursion so that it reduces in the
kernel.  `lg2 fuel n` is correct whenever `fuel ≥ n ≥ 1`. -/
def lg2 : ℕ → ℕ → ℕ
  | 0, _ => 0
  | fuel + 1, n => if n < 2 then 0 else lg2 fuel (n / 2) + 1

/-- Number of doublings of `a` needed to reach at least `b`, by fuel recursion.
`dbl2 fuel a b` is correct whenever `fuel` is at least that count. -/
def dbl2 : ℕ → ℕ → ℕ → ℕ
  | 0, _, _ => 0
  | fuel + 1, a, b => if b ≤ a then 0 else dbl2 fuel (2 * a) b + 1

/-- Floor of a rational as an integer (floor division of numerator by
denominator). -/
def qfloor (q : ℚ) : ℤ := Int.fdiv q.num (q.den : ℤ)

/-- The binade exponent of a positive rational: the unique `e` with
`2 ^ e ≤ q < 2 ^ (e + 1)`. -/
def qexp (q : ℚ) : ℤ :=
  if (q.den : ℤ) ≤ q.num then (lg2 (q.num.toNat / q.den) (q.num.toNat / q.den) : ℤ)
  else -(dbl2 q.den q.num.toNat q.den : ℤ)

/-- Multiply a rational by `2 ^ e` for `e : ℤ`. -/
def shift2 (q : ℚ) (e : ℤ) : ℚ :=
  if 0 ≤ e then Rat.divInt (q.num * ((2 ^ e.toNat : ℕ) : ℤ)) (q.den : ℤ)
  else Rat.divInt q.num ((q.den * 2 ^ (-e).toNat : ℕ) : ℤ)

/-- Round a rational to the nearest integer, ties to even. -/
def rne (q : ℚ) : ℤ :=
  let f := Int.fdiv q.num (q.den : ℤ)
  let rem := q.num - f * (q.den : ℤ)
  if 2 * rem < (q.den : ℤ) then f
  else if (q.den : ℤ) < 2 * rem then f + 1
  else if f % 2 = 0 then f else f + 1

/-- Round an exact rational to the nearest `f32` value (24-bit significand,
round to nearest, ties to even), for normal-range magnitudes. -/
def fround (q : ℚ) : ℚ :=
  if q.num = 0 then 0
  else
    let a : ℚ := if q.num < 0 then Rat.divInt (-q.num) (q.den : ℤ) else q
    let e : ℤ := qexp a - 23
    let r : ℚ := shift2 (Rat.divInt (rne (shift2 a (-e))) 1) e
    if q.num < 0 then Rat.divInt (-r.num) (r.den : ℤ) else r

/-- The `f32` value of a nonnegative machine integer (`n as f32`). -/
def f32ofNat (n : ℕ) : ℚ := fround (Rat.divInt (n : ℤ) 1)

/-- `f32` multiplication: exact rational product, then `f32` rounding. -/
def f32mul (a b : ℚ) : ℚ := fround (Rat.divInt (a.num * b.num) ((a.den * b.den : ℕ) : ℤ))

/-- `f32` division: exact rational quotient, then `f32` rounding. -/
def f32div (a b : ℚ) : ℚ := fround (Rat.divInt (a.num * (b.den : ℤ)) ((a.den : ℤ) * b.num))

/-- `f32` addition: exact rational sum, then `f32` rounding. -/
def f32add (a b : ℚ) : ℚ :=
  fround (Rat.divInt (a.num * (b.den : ℤ) + b.num * (a.den : ℤ)) ((a.den * b.den : ℕ) : ℤ))

/-- The Rust `as usize` cast of a (finite, in-range) `f32`: truncation toward
zero, saturating at 0 for negative values. -/
def f32toUsize (q : ℚ) : ℕ := (qfloor q).toNat

example : fround (mkRat 3 5) = mkRat 10066330 16777216 := by decide
example : fround (mkRat 7 2) = mkRat 7 2 := by decide
example : fround 360 = 360 := by decide
example : f32div (f32div (f32mul 12 (f32ofNat 60)) 60) (f32ofNat 20) = mkRat 5033165 8388608 := by
  decide
example : f32toUsize (f32div 360 (mkRat 5033165 8388608)) = 600 := by decide

/-! ### Geometry, paints and the canvas model -/

/-- A 2D point (`(f32, f32)` in the source, idealized over `ℝ`). -/
abbrev Point := ℝ × ℝ

/-- ARGB color word (`skia_safe::Color`). -/
abbrev Color := ℕ

/-- `const PI: f32 = std::f32::consts::PI;` idealized as the exact `π`. -/
noncomputable def PI : ℝ := Real.pi

/-- `const DEGREES_IN_RADIANS: f32 = PI / 180.0;` -/
noncomputable def DEGREES_IN_RADIANS : ℝ := PI / 180

/-- `const PEN_SIZE: f32 = 1.0;` -/
def PEN_SIZE : ℝ := 1

/-- `fn point_in_circle(center, radius, radians)`: the point at `radius` and
angle `radians` from `center`, `y` decreasing as the angle grows. -/
noncomputable def point_in_circle (center : Point) (radius : ℝ) (radians : ℝ) : Point :=
  (center.1 + radius * Real.cos radians, center.2 - radius * Real.sin radians)

/-- Skia paint style: fill or stroke. -/
inductive PaintStyle
  | fill
  | stroke
deriving DecidableEq

/-- Skia stroke join style (only the default miter and bevel are used). -/
inductive PaintJoin
  | miter
  | bevel
deriving DecidableEq

/-- Skia tile mode (only clamp is used). -/
inductive TileMode
  | clamp
deriving DecidableEq

/-- An affine local matrix built as `Matrix::scale((sx, sy))` followed by
`post_translate((tx, ty))`; no rotation component is ever used. -/
structure Matrix2 where
  sx : ℝ
  sy : ℝ
  tx : ℝ
  ty : ℝ

/-- A shader: only radial gradients occur (`gradient_shader::radial`), with a
center, radius, color stops, optional positions, tile mode and optional local
matrix. -/
inductive Shader
  | radial (center : Point) (radius : ℝ) (colors : List Color) (pos : Option (List ℝ))
      (mode : TileMode) (matrix : Option Matrix2)

/-- A Skia paint value; fields mirror the mutated state of
`skia_safe::Paint`. -/
structure Paint where
  antiAlias : Bool
  strokeWidth : ℝ
  style : PaintStyle
  join : PaintJoin
  color : Color
  shader : Option Shader

/-- `Paint::default()`: black, fill, no anti-alias, zero stroke width, miter
join, no shader. -/
def Paint.default : Paint :=
  { antiAlias := false, strokeWidth := 0, style := PaintStyle.fill, join := PaintJoin.miter,
    color := 0xff000000, shader := none }

/-- `fn gradient(paint, center, radii, colors)`: a radial gradient of radius
`radii.1` in a local frame scaled by `(1, ry/rx)` and translated to `center`,
bound into the paint's shader slot.  (Named `gradientPaint` because Mathlib
already declares `gradient`.) -/
noncomputable def gradientPaint (paint : Paint) (center : Point) (radii : ℝ × ℝ) (colors : Color × Color) :
    Paint :=
  let matrix : Matrix2 := { sx := 1, sy := radii.2 / radii.1, tx := center.1, ty := center.2 }
  { paint with
    shader := some (Shader.radial (0, 0) radii.1 [colors.1, colors.2] none TileMode.clamp
      (some matrix)) }

/-- One Skia path verb, as issued by `move_to` / `line_to` / `cubic_to` /
`close`. -/
inductive Verb
  | move (p : Point)
  | line (p : Point)
  | cubic (c1 c2 p : Point)
  | close

/-- The kind of a path verb, with the coordinates forgotten. -/
inductive VKind
  | move
  | line
  | cubic
  | close
deriving DecidableEq

/-- Forget the coordinates of every verb of a path. -/
def verbKinds (p : List Verb) : List VKind :=
  p.map fun v =>
    match v with
    | Verb.move _ => VKind.move
    | Verb.line _ => VKind.line
    | Verb.cubic _ _ _ => VKind.cubic
    | Verb.close => VKind.close

/-- A canvas call issued by the core: transform-stack manipulation or a draw. -/
inductive CanvasOp
  | save
  | restore
  | translate (p : Point)
  | rotate (degrees : ℝ)
  | drawPath (path : List Verb) (paint : Paint)
  | drawCircle (center : Point) (radius : ℝ) (paint : Paint)

/-- `true` exactly for `CanvasOp.save`. -/
def CanvasOp.isSave : CanvasOp → Bool
  | CanvasOp.save => true
  | _ => false

/-- `true` exactly for `CanvasOp.restore`. -/
def CanvasOp.isRestore : CanvasOp → Bool
  | CanvasOp.restore => true
  | _ => false

/-- A recorded draw: a filled/stroked path or a circle. -/
inductive DrawCmd
  | path (p : List Verb) (paint : Paint)
  | circle (c : Point) (r : ℝ) (paint : Paint)

/-- The paint a draw command carries. -/
def DrawCmd.paintOf : DrawCmd → Paint
  | DrawCmd.path _ paint => paint
  | DrawCmd.circle _ _ paint => paint

/-- Canvas state: the current transform (sequence of applied translate/rotate
steps since the identity), the save/restore stack, and every draw issued so
far, tagged with the transform that was current when it was issued. -/
structure CanvasState where
  cur : List CanvasOp
  stack : List (List CanvasOp)
  draws : List (List CanvasOp × DrawCmd)

/-- Apply one canvas call to the canvas state.  `restore` on an empty stack is
a no-op, as in Skia. -/
def applyOp (s : CanvasState) : CanvasOp → CanvasState
  | CanvasOp.save => { s with stack := s.cur :: s.stack }
  | CanvasOp.restore =>
      match s.stack with
      | [] => s
      | t :: rest => { s with cur := t, stack := rest }
  | CanvasOp.translate p => { s with cur := s.cur ++ [CanvasOp.translate p] }
  | CanvasOp.rotate d => { s with cur := s.cur ++ [CanvasOp.rotate d] }
  | CanvasOp.drawPath p paint => { s with draws := s.draws ++ [(s.cur, DrawCmd.path p paint)] }
  | CanvasOp.drawCircle c r paint =>
      { s with draws := s.draws ++ [(s.cur, DrawCmd.circle c r paint)] }

/-- Run a list of canvas calls from a starting state. -/
def applyOps (s : CanvasState) : List CanvasOp → CanvasState
  | [] => s
  | op :: rest => applyOps (applyOp s op) rest

/-- A canvas with identity transform, empty stack and no draws. -/
def canvas0 : CanvasState := { cur := [], stack := [], draws := [] }

/-! ### The chain-ring generator (`fn chain_ring`, src/main.rs:367-498) -/

/-- The outer teeth loop of `chain_ring` (src/main.rs:395-414): one iteration
per tooth, carrying the running angle `alpha` and the iteration index `i`,
emitting (line unless first, which is a move), a cubic bulging to
`1.035 * outer_radius`, and the bottom-gap line. -/
noncomputable def teethLoop (c : Point) (outerR teethLen delta gap : ℝ) :
    ℕ → ℝ → ℕ → List Verb
  | 0, _, _ => []
  | n + 1, alpha, i =>
      let a0 := alpha - delta / 2 + gap / 2
      let v := point_in_circle c (outerR - teethLen) a0
      let middle := a0 + (delta - gap) / 2
      let a1 := a0 + (delta - gap)
      let a2 := a1 + gap
      ((if i = 0 then [Verb.move v] else [Verb.line v]) ++
        [Verb.cubic (point_in_circle c (outerR * 1.035) middle)
            (point_in_circle c (outerR * 1.035) middle)
            (point_in_circle c (outerR - teethLen) a1),
          Verb.line (point_in_circle c (outerR - teethLen) a2)]) ++
        teethLoop c outerR teethLen delta gap n (alpha + delta) (i + 1)

/-- The inner scalloped-lobe loop of `chain_ring` (src/main.rs:421-444): one
iteration per lobe, two chained cubics each. -/
noncomputable def lobeLoop (c : Point) (innerR teethLen delta gap : ℝ) :
    ℕ → ℝ → ℕ → List Verb
  | 0, _, _ => []
  | n + 1, alpha, i =>
      let a0 := alpha - delta / 2 + gap / 2
      let v := point_in_circle c innerR a0
      let middle := a0 + (delta - gap) / 2
      let a1 := a0 + (delta - gap)
      let a2 := a1 + gap
      ((if i = 0 then [Verb.move v] else [Verb.line v]) ++
        [Verb.cubic (point_in_circle c (innerR - teethLen * 1.33) middle)
            (point_in_circle c (innerR - teethLen * 1.33) middle)
            (point_in_circle c innerR a1),
          Verb.cubic (point_in_circle c (innerR * 1.05) (a2 - gap * 0.67))
            (point_in_circle c (innerR * 1.05) (a2 - gap * 0.34))
            (point_in_circle c innerR a2)]) ++
        lobeLoop c innerR teethLen delta gap n (alpha + delta) (i + 1)

/-- The inner loop of one bolt rosette (src/main.rs:452-463): a move then four
cubic segments, the angle decreasing by `π/2` each step. -/
noncomputable def boltRosette (cc : Point) (boltR : ℝ) : ℕ → ℝ → ℕ → List Verb
  | 0, _, _ => []
  | n + 1, a, j =>
      (if j = 0 then [Verb.move (point_in_circle cc boltR a)]
        else
          [Verb.cubic (point_in_circle cc (boltR * 1.14) (a + PI / 3))
            (point_in_circle cc (boltR * 1.14) (a + PI / 6))
            (point_in_circle cc boltR a)]) ++
        boltRosette cc boltR n (a - PI / 2) (j + 1)

/-- The outer loop over the five bolt rosettes (src/main.rs:449-467); each
rosette is closed individually. -/
noncomputable def boltLoop (c : Point) (innerR boltR delta : ℝ) : ℕ → ℝ → List Verb
  | 0, _ => []
  | n + 1, alpha =>
      let cc := point_in_circle c (innerR + boltR * 0.33) alpha
      (boltRosette cc boltR 5 alpha 0 ++ [Verb.close]) ++
        boltLoop c innerR boltR delta n (alpha + delta)

/-- The complete multi-contour path built by `chain_ring`
(src/main.rs:383-467): outer teeth contour, inner five-lobe contour, five bolt
rosettes.  The local `center` is shadowed to `(0,0)` in the source because the
canvas has already been translated to the ring center. -/
noncomputable def chain_ring_path (radius : ℕ) (teeth_count : ℕ) : List Verb :=
  let c : Point := (0, 0)
  let outer_radius : ℝ := (radius : ℝ)
  let inner_radius := outer_radius * 0.73
  let ridge_radius := outer_radius * 0.85
  let teeth_length := (outer_radius - ridge_radius) * 0.8
  let delta := 2 * PI / (teeth_count : ℝ)
  let teeth_bottom_gap := 0.2 * delta
  let outer := teethLoop c outer_radius teeth_length delta teeth_bottom_gap teeth_count (PI / 2) 0
      ++ [Verb.close]
  let delta2 := -(2 * PI) / 5
  let gap2 := 0.70 * delta2
  let inner := lobeLoop c inner_radius teeth_length delta2 gap2 5 (PI / 2) 0 ++ [Verb.close]
  let bolt_radius := inner_radius * 0.81 * (delta2 - gap2) / delta2 / PI
  let bolts := boltLoop c inner_radius bolt_radius delta2 5 (PI / 2)
  outer ++ inner ++ bolts

/-- `fn chain_ring(canvas, center, radius, rotation, teeth_count)`: the full
sequence of canvas calls the function issues, in order.  `rotation` is the
`f32` value handed in by the frame composer.  The paint evolves by mutation in
the source; `paint1` through `paint4` are its successive states. -/
noncomputable def chain_ring (canvasWidth : ℕ) (center : ℕ × ℕ) (radius : ℕ) (rotation : ℚ)
    (teeth_count : ℕ) : List CanvasOp :=
  let paint1 : Paint :=
    { Paint.default with
      antiAlias := true,
      strokeWidth := max PEN_SIZE ((canvasWidth : ℝ) / 360) }
  let outer_radius : ℝ := (radius : ℝ)
  let ridge_radius := outer_radius * 0.85
  let path := chain_ring_path radius teeth_count
  let paint2 : Paint :=
    { paint1 with
      style := PaintStyle.fill,
      shader := some (Shader.radial (0, 0.04 * ridge_radius) ridge_radius
        [0xff555555, 0xff7b492d] (some [0.8, 1]) TileMode.clamp none) }
  let paint3 : Paint :=
    { paint2 with
      shader := none,
      style := PaintStyle.stroke,
      color := 0xff592e1f }
  let paint4 : Paint := gradientPaint paint3 (0, -ridge_radius)
    (2 * ridge_radius, 2 * ridge_radius) (0xff592e1f, 0xff885543)
  [CanvasOp.save, CanvasOp.translate ((center.1 : ℝ), (center.2 : ℝ)), CanvasOp.save,
    CanvasOp.rotate ((rotation : ℚ) : ℝ),
    CanvasOp.drawPath path paint2, CanvasOp.drawPath path paint3, CanvasOp.restore,
    CanvasOp.drawCircle (0, 0) ridge_radius paint4, CanvasOp.restore]

/-! ### The triangle generator (`fn triangle`, src/main.rs:500-578) -/

/-- The local `delta` of `fn triangle`: `120.0 * DEGREES_IN_RADIANS`. -/
noncomputable def triangle_delta : ℝ := 120 * DEGREES_IN_RADIANS

/-- The local `side` of `fn triangle` (src/main.rs:514):
`r / ((PI - delta) / 2.0).cos() * 2.0`. -/
noncomputable def triangle_side (r : ℝ) : ℝ := r / Real.cos ((PI - triangle_delta) / 2) * 2

/-- The vertex loop of `fn triangle` (src/main.rs:561-575): four iterations, a
move then three cubic (wankel) or line segments. -/
noncomputable def triLoop (c : Point) (r b : ℝ) (wankel : Bool) : ℕ → ℝ → ℕ → List Verb
  | 0, _, _ => []
  | n + 1, alpha, i =>
      let v := point_in_circle c r alpha
      (if i = 0 then [Verb.move v]
        else if wankel then
          [Verb.cubic (point_in_circle c b (alpha - 2 * triangle_delta / 3))
            (point_in_circle c b (alpha - triangle_delta / 3)) v]
        else [Verb.line v]) ++
        triLoop c r b wankel n (alpha + triangle_delta) (i + 1)

/-- The closed path built by `fn triangle`: the four-iteration loop followed by
`path.close()`. -/
noncomputable def triangle_path (center : ℕ × ℕ) (radius : ℕ) (degrees : ℚ) (wankel : Bool) :
    List Verb :=
  let c : Point := ((center.1 : ℝ), (center.2 : ℝ))
  let r : ℝ := (radius : ℝ)
  let b := r * 0.9
  triLoop c r b wankel 4 (((degrees : ℚ) : ℝ) * DEGREES_IN_RADIANS) 0 ++ [Verb.close]

/-- `fn triangle(canvas, center, radius, degrees, vertex, color, wankel)`: the
canvas calls the function issues.  `Some(index)` with `index` outside
`{0, 1, 2}` hits the `panic!` arm of the radii match (src/main.rs:538) before
any path segment is produced or drawn, which the model renders as
`Except.error` carrying the panic message. -/
noncomputable def triangle (canvasWidth : ℕ) (center : ℕ × ℕ) (radius : ℕ) (degrees : ℚ)
    (vertex : Option ℤ) (color : Color) (wankel : Bool) : Except String (List CanvasOp) :=
  let c : Point := ((center.1 : ℝ), (center.2 : ℝ))
  let r : ℝ := (radius : ℝ)
  let side := triangle_side r
  let path := triangle_path center radius degrees wankel
  match vertex with
  | some index =>
      if index = 0 ∨ index = 2 then
        Except.ok [CanvasOp.drawPath path (gradientPaint Paint.default
          (point_in_circle c r ((((degrees : ℚ) : ℝ) + ((120 * index : ℤ) : ℝ)) *
            DEGREES_IN_RADIANS))
          (if wankel then (0.36 * side, 0.404 * side) else (0.30 * side, 0.60 * side))
          (color, 0x000000ff))]
      else if index = 1 then
        Except.ok [CanvasOp.drawPath path (gradientPaint Paint.default
          (point_in_circle c r ((((degrees : ℚ) : ℝ) + ((120 * index : ℤ) : ℝ)) *
            DEGREES_IN_RADIANS))
          (if wankel then (0.404 * side, 0.50 * side) else (0.420 * side, 0.50 * side))
          (color, 0x000000ff))]
      else Except.error ("Invalid vertex index " ++ toString index ++ " for triangle.")
  | none =>
      Except.ok [CanvasOp.drawPath path
        { Paint.default with
          antiAlias := true,
          strokeWidth := max PEN_SIZE ((canvasWidth : ℝ) / 360),
          style := PaintStyle.stroke,
          join := PaintJoin.bevel,
          shader := some (Shader.radial (c.1, c.2 - 0.5 * r) (0.5 * r) [0xffffffff, color]
            none TileMode.clamp none) }]

/-! ### The frame composer (`fn render_frame`, src/main.rs:268-365) -/

/-- The per-frame rotation step in degrees (src/main.rs:274):
`12.0 * bpm as f32 / 60.0 / fps as f32`, every operation in `f32`. -/
def step_of (fps bpm : ℕ) : ℚ := f32div (f32div (f32mul 12 (f32ofNat bpm)) 60) (f32ofNat fps)

/-- The `frame_count` of the composer (src/main.rs:275):
`(360.0 / step) as usize` — truncation toward zero, not rounding. -/
def frame_count_of (fps bpm : ℕ) : ℕ := f32toUsize (f32div 360 (step_of fps bpm))

/-- One of the nine draw calls `render_frame` issues, with its literal
arguments: the chain ring, or a triangle with rotation, optional vertex index,
color, and wankel flag. -/
inductive Call
  | ring (center : ℕ × ℕ) (radius : ℕ) (rotation : ℚ) (teeth : ℕ)
  | tri (center : ℕ × ℕ) (radius : ℕ) (rotation : ℚ) (vertex : Option ℤ) (color : Color)
      (wankel : Bool)
deriving DecidableEq

/-- The rotation argument a call carries. -/
def Call.rotationArg : Call → ℚ
  | Call.ring _ _ rot _ => rot
  | Call.tri _ _ rot _ _ _ => rot

/-- `true` exactly for triangle calls. -/
def Call.isTri : Call → Bool
  | Call.tri _ _ _ _ _ _ => true
  | Call.ring _ _ _ _ => false

/-- The ordered sequence of generator calls issued by `render_frame`
(src/main.rs:286-362) with their arguments: sizes and centers from the canvas
dimensions, `rotation = frame as f32 * step` (no modulo), and
`triangle_rotation = 60.0 + rotation` for all eight triangle calls. -/
def render_calls (frame fps bpm width height : ℕ) : List Call :=
  let step := step_of fps bpm
  let size := min width height
  let center := (size / 2, size / 2)
  let chain_ring_radius := size / 2 * 100 / 100
  let triangle_radius := size / 2 * 53 / 100
  let rotation := f32mul (f32ofNat frame) step
  let triangle_rotation := f32add 60 rotation
  [Call.ring center chain_ring_radius rotation 32,
    Call.tri center triangle_radius triangle_rotation (some 0) 0xff00ff00 true,
    Call.tri center triangle_radius triangle_rotation (some 1) 0xff0000ff true,
    Call.tri center triangle_radius triangle_rotation (some 2) 0xffff0000 true,
    Call.tri center triangle_radius triangle_rotation (some 0) 0xffffff00 false,
    Call.tri center triangle_radius triangle_rotation (some 1) 0xff00ffff false,
    Call.tri center triangle_radius triangle_rotation (some 2) 0xffff00ff false,
    Call.tri center triangle_radius triangle_rotation none 0x77222222 true,
    Call.tri center triangle_radius triangle_rotation none 0x77222222 false]

/-- Interpret one generator call as its canvas-op sequence. -/
noncomputable def callOps (canvasWidth : ℕ) : Call → Except String (List CanvasOp)
  | Call.ring center radius rot teeth => Except.ok (chain_ring canvasWidth center radius rot teeth)
  | Call.tri center radius rot vertex color wankel =>
      triangle canvasWidth center radius rot vertex color wankel

/-- Run the generator calls in order, concatenating their canvas ops; the
first panic (if any) aborts the sequence, as in the source. -/
noncomputable def traverseCalls (canvasWidth : ℕ) : List Call → Except String (List CanvasOp)
  | [] => Except.ok []
  | c :: rest => do
      let o ← callOps canvasWidth c
      let os ← traverseCalls canvasWidth rest
      pure (o ++ os)

/-- `fn render_frame(frame, fps, bpm, canvas)`: the canvas calls issued plus
the return value `frame_count - (frame + 1)` (src/main.rs:364).  The `usize`
subtraction is checked: when `frame + 1 > frame_count` it is the Rust
arithmetic-overflow panic, modelled as `Except.error` with the standard panic
message. -/
noncomputable def render_frame (frame fps bpm width height : ℕ) :
    Except String (List CanvasOp × ℕ) :=
  match traverseCalls width (render_calls frame fps bpm width height) with
  | Except.error e => Except.error e
  | Except.ok ops =>
      if frame + 1 ≤ frame_count_of fps bpm then
        Except.ok (ops, frame_count_of fps bpm - (frame + 1))
      else
        Except.error "attempt to subtract with overflow"

example : frame_count_of 12 60 = 360 := by decide
example : frame_count_of 20 60 = 600 := by decide
example : frame_count_of 2 35 = 102 := by decide
example : step_of 12 60 = 1 := by decide
example : (render_frame 0 20 60 800 800).map Prod.snd = Except.ok 599 := by rfl
example : (render_frame 599 20 60 800 800).map Prod.snd = Except.ok 0 := by rfl
example : render_frame 600 20 60 800 800 = Except.error "attempt to subtract with overflow" := by
  rfl

/-! ### Statement-side descriptions of the claimed contour structure -/

/-- The paths drawn (filled or stroked) by a sequence of canvas calls. -/
def drawnPaths (ops : List CanvasOp) : List (List Verb) :=
  ops.filterMap fun op =>
    match op with
    | CanvasOp.drawPath p _ => some p
    | _ => none

/-- One claimed tooth unit of the outer contour: an approach segment (a move
for the first tooth, a line otherwise), the cubic tooth bulge, and the
bottom-gap line. -/
def toothUnitKinds (i : ℕ) : List VKind :=
  (if i = 0 then [VKind.move] else [VKind.line]) ++ [VKind.cubic, VKind.line]

/-- One claimed lobe unit of the inner contour: an approach segment and two
chained cubic Beziers. -/
def lobeUnitKinds (i : ℕ) : List VKind :=
  (if i = 0 then [VKind.move] else [VKind.line]) ++ [VKind.cubic, VKind.cubic]

/-- One claimed bolt rosette: a closed contour of exactly four cubic
segments. -/
def rosetteKinds : List VKind :=
  [VKind.move, VKind.cubic, VKind.cubic, VKind.cubic, VKind.cubic, VKind.close]

/-- The whole claimed chain-ring contour structure: 32 tooth units then a
close, 5 lobe units then a close, then 5 closed rosettes. -/
def chainRingExpectedKinds : List VKind :=
  ((List.range 32).map toothUnitKinds).flatten ++ [VKind.close] ++
    (((List.range 5).map lobeUnitKinds).flatten ++ [VKind.close] ++
      (List.replicate 5 rosetteKinds).flatten)

/-! ### Claim theorems -/

/-- C10: the chain-ring generator issues exactly two saves and two restores,
and after any run of its canvas calls the current transform and the
transform-stack are exactly what they were before. -/
theorem chain_ring_preserves_transform (w : ℕ) (center : ℕ × ℕ) (radius : ℕ) (rot : ℚ)
    (teeth : ℕ) (s : CanvasState) :
    (applyOps s (chain_ring w center radius rot teeth)).cur = s.cur ∧
    (applyOps s (chain_ring w center radius rot teeth)).stack = s.stack ∧
    (chain_ring w center radius rot teeth).countP CanvasOp.isSave = 2 ∧
    (chain_ring w center radius rot teeth).countP CanvasOp.isRestore = 2 :=
  ⟨rfl, rfl, rfl, rfl⟩

/-- C8: with `teeth_count = 32` the chain-ring generator draws (twice: fill
then stroke) one path whose contours are exactly 32 tooth units
(cubic-to-line pattern) closed, 5 lobes of two chained cubics each closed,
and 5 bolt rosettes of exactly four cubic segments, each closed. -/
theorem chain_ring_path_structure (w : ℕ) (center : ℕ × ℕ) (radius : ℕ) (rot : ℚ) :
    drawnPaths (chain_ring w center radius rot 32) =
      [chain_ring_path radius 32, chain_ring_path radius 32] ∧
    verbKinds (chain_ring_path radius 32) = chainRingExpectedKinds :=
  ⟨rfl, rfl⟩

/-- C7 (counterexample): the triangle contour has exactly 3 curve segments,
not 4 as claimed — the four-iteration loop spends its first iteration on the
`move_to`.  Shown at a concrete input in both rounded and straight mode. -/
theorem triangle_path_segment_count_cex :
    (verbKinds (triangle_path (400, 400) 212 60 true)).count VKind.cubic = 3 ∧
    (verbKinds (triangle_path (400, 400) 212 60 false)).count VKind.line = 3 ∧
    (3 : ℕ) ≠ 4 :=
  ⟨rfl, rfl, by decide⟩

/-- C7 (amended): for every in-contract vertex argument (`none` or indices 0,
1, 2), the triangle generator draws the closed path `triangle_path`, whose
contour is a move followed by exactly 3 cubic segments (`rounded = true`) or
exactly 3 straight line segments (`rounded = false`), then an explicit
close. -/
theorem triangle_segment_kinds (w : ℕ) (center : ℕ × ℕ) (radius : ℕ) (degrees : ℚ)
    (v : Option ℤ) (color : Color) (wk : Bool)
    (hv : v = none ∨ v = some 0 ∨ v = some 1 ∨ v = some 2) :
    (∃ paint, triangle w center radius degrees v color wk =
      Except.ok [CanvasOp.drawPath (triangle_path center radius degrees wk) paint]) ∧
    verbKinds (triangle_path center radius degrees wk) =
      (if wk then [VKind.move, VKind.cubic, VKind.cubic, VKind.cubic, VKind.close]
        else [VKind.move, VKind.line, VKind.line, VKind.line, VKind.close]) := by
  constructor
  · rcases hv with rfl | rfl | rfl | rfl
    · exact ⟨_, rfl⟩
    · exact ⟨_, rfl⟩
    · exact ⟨_, rfl⟩
    · exact ⟨_, rfl⟩
  · cases wk
    · rfl
    · rfl

/-- C7 (witness): the amended statement applied at a concrete input
(outline mode, rounded). -/
theorem triangle_segment_kinds_witness :
    (∃ paint, triangle 800 (400, 400) 212 60 none 0x77222222 true =
      Except.ok [CanvasOp.drawPath (triangle_path (400, 400) 212 60 true) paint]) ∧
    verbKinds (triangle_path (400, 400) 212 60 true) =
      (if true then [VKind.move, VKind.cubic, VKind.cubic, VKind.cubic, VKind.close]
        else [VKind.move, VKind.line, VKind.line, VKind.line, VKind.close]) :=
  triangle_segment_kinds 800 (400, 400) 212 60 none 0x77222222 true (Or.inl rfl)

/-- C5: any vertex index other than 0, 1 or 2 (for example 3, or any negative
value) makes the triangle generator abort with the `panic!` of the radii
match; no canvas call is produced, so nothing is drawn. -/
theorem triangle_invalid_vertex_panics (w : ℕ) (center : ℕ × ℕ) (radius : ℕ) (degrees : ℚ)
    (i : ℤ) (color : Color) (wk : Bool) (h0 : i ≠ 0) (h1 : i ≠ 1) (h2 : i ≠ 2) :
    triangle w center radius degrees (some i) color wk =
      Except.error ("Invalid vertex index " ++ toString i ++ " for triangle.") := by
  unfold triangle
  simp [h0, h1, h2]

/-- C5 (witness): the invalid-index panic at the concrete index 3. -/
theorem triangle_invalid_vertex_panics_witness :
    triangle 800 (400, 400) 212 60 (some 3) 0xff00ff00 true =
      Except.error ("Invalid vertex index " ++ toString (3 : ℤ) ++ " for triangle.") :=
  triangle_invalid_vertex_panics 800 (400, 400) 212 60 3 0xff00ff00 true (by decide) (by decide)
    (by decide)

/-- C9 (counterexample): at radius 1 the computed `side` is `4 / √3 ≈ 2.309`,
which is not the 120° chord length `√3 · 1 ≈ 1.732`: the source divides by
`cos(π/6)` where the chord formula would multiply. -/
theorem triangle_side_not_chord :
    triangle_side 1 = 4 / Real.sqrt 3 ∧ 4 / Real.sqrt 3 ≠ Real.sqrt 3 * 1 := by
  have hangle : (PI - triangle_delta) / 2 = Real.pi / 6 := by
    simp only [triangle_delta, DEGREES_IN_RADIANS, PI]
    ring
  have hs3 : Real.sqrt 3 ≠ 0 := ne_of_gt (Real.sqrt_pos.mpr (by norm_num))
  constructor
  · unfold triangle_side
    rw [hangle, Real.cos_pi_div_six]
    field_simp
    norm_num
  · intro h
    rw [mul_one] at h
    have h4 : (4 : ℝ) = Real.sqrt 3 * Real.sqrt 3 := by
      calc (4 : ℝ) = 4 / Real.sqrt 3 * Real.sqrt 3 := by field_simp
        _ = Real.sqrt 3 * Real.sqrt 3 := by rw [h]
    rw [Real.mul_self_sqrt (by norm_num : (0 : ℝ) ≤ 3)] at h4
    norm_num at h4

/-- C9 (amended): for every radius `r`, the `side` computed by the triangle
generator equals `r / cos(π/6) * 2 = (4/√3)·r ≈ 2.309·r` — that is, 4/3 of
the 120° chord `√3·r`, not the chord itself. -/
theorem triangle_side_eq (r : ℝ) : triangle_side r = 4 / Real.sqrt 3 * r := by
  have hangle : (PI - triangle_delta) / 2 = Real.pi / 6 := by
    simp only [triangle_delta, DEGREES_IN_RADIANS, PI]
    ring
  have hs3 : Real.sqrt 3 ≠ 0 := ne_of_gt (Real.sqrt_pos.mpr (by norm_num))
  unfold triangle_side
  rw [hangle, Real.cos_pi_div_six]
  field_simp
  ring

/-- C6 (counterexample): the paint with which the ridge circle is drawn still
has `PaintStyle::Stroke` (set at src/main.rs:482 and never reset to fill), so
the circle is outlined, not filled as claimed. -/
theorem ridge_circle_not_filled :
    ((applyOps canvas0 (chain_ring 800 (400, 400) 400 30 32)).draws.getLast?).map
        (fun d => (DrawCmd.paintOf d.2).style) = some PaintStyle.stroke ∧
    PaintStyle.stroke ≠ PaintStyle.fill :=
  ⟨rfl, by decide⟩

/-- C6 (amended): after the rotation transform is restored, the chain-ring
generator records exactly one more draw — a circle of radius
`ridge_radius = 0.85 * R` at the ring center, issued under the translate-only
transform (no rotate), painted with the paint still in stroke mode (outlined,
not filled), whose shader is the two-color radial gradient translated to the
top of the circle `(0, -ridge_radius)`. -/
theorem ridge_circle_after_restore (w : ℕ) (center : ℕ × ℕ) (radius : ℕ) (rot : ℚ)
    (teeth : ℕ) (s : CanvasState) :
    (applyOps s (chain_ring w center radius rot teeth)).draws.length = s.draws.length + 3 ∧
    (applyOps s (chain_ring w center radius rot teeth)).draws.getLast? = some
      (s.cur ++ [CanvasOp.translate ((center.1 : ℝ), (center.2 : ℝ))],
        DrawCmd.circle (0, 0) ((radius : ℝ) * 0.85)
          { antiAlias := true, strokeWidth := max PEN_SIZE ((w : ℝ) / 360),
            style := PaintStyle.stroke, join := PaintJoin.miter, color := 0xff592e1f,
            shader := some (Shader.radial (0, 0)
              (2 * ((radius : ℝ) * 0.85)) [0xff592e1f, 0xff885543] none TileMode.clamp
              (some { sx := 1,
                      sy := 2 * ((radius : ℝ) * 0.85) / (2 * ((radius : ℝ) * 0.85)),
                      tx := 0, ty := -((radius : ℝ) * 0.85) })) }) := by
  constructor
  · simp [chain_ring, applyOps, applyOp]
  · simp [chain_ring, applyOps, applyOp, gradientPaint, Paint.default]

/-- Helper: the nine generator calls of `render_frame` always succeed — every
vertex argument it passes is `none`, `some 0`, `some 1` or `some 2`, so no
panic can arise from drawing. -/
theorem traverseCalls_render_ok (frame fps bpm w h : ℕ) :
    ∃ ops, traverseCalls w (render_calls frame fps bpm w h) = Except.ok ops :=
  ⟨_, rfl⟩

/-- C1 (counterexample): at `fps = 2`, `bpm = 35` the step is exactly 3.5 and
`360 / 3.5 = 102.857…`; the code truncates to 102 and returns `102 - 1 = 101`
at frame 0, while the claimed `round(360/step) - 1 = 103 - 1 = 102`. -/
theorem render_frame_return_not_rounded :
    (render_frame 0 2 35 800 800).map Prod.snd = Except.ok 101 ∧
    round ((360 : ℚ) / (12 * 35 / (60 * 2))) - (0 + 1) = 102 ∧
    (101 : ℤ) ≠ 102 := by
  refine ⟨rfl, ?_, by decide⟩
  have hq : ((360 : ℚ) / (12 * 35 / (60 * 2))) = 720 / 7 := by norm_num
  have hfloor : (⌊(720 : ℚ) / 7 + 1 / 2⌋ : ℤ) = 103 := by
    rw [Int.floor_eq_iff]
    constructor
    · norm_num
    · norm_num
  rw [hq, round_eq, hfloor]
  norm_num

/-- C1 (amended): for positive fps and bpm and every frame index with
`frame + 1 ≤ frame_count`, `render_frame` returns
`frame_count - (frame + 1)`, where the step is the `f32` value of
`12·bpm/(60·fps)` and `frame_count = (360/step) as usize` — truncated toward
zero, not rounded; for larger frame indices the subtraction panics
(see C4). -/
theorem render_frame_return_truncated (frame fps bpm w h : ℕ) (_hf : 0 < fps) (_hb : 0 < bpm)
    (hfc : frame + 1 ≤ frame_count_of fps bpm) :
    (render_frame frame fps bpm w h).map Prod.snd =
      Except.ok (frame_count_of fps bpm - (frame + 1)) := by
  obtain ⟨ops, hops⟩ := traverseCalls_render_ok frame fps bpm w h
  unfold render_frame
  rw [hops]
  simp [hfc, Except.map]

/-- C1 (witness): the amended statement applied at frame 0, fps 2, bpm 35,
where `frame_count_of 2 35 = 102` and the returned value is 101. -/
theorem render_frame_return_truncated_witness :
    0 < 2 ∧ 0 < 35 ∧ 0 + 1 ≤ frame_count_of 2 35 ∧
    (render_frame 0 2 35 800 800).map Prod.snd = Except.ok (frame_count_of 2 35 - (0 + 1)) :=
  ⟨by decide, by decide, by decide,
    render_frame_return_truncated 0 2 35 800 800 (by decide) (by decide) (by decide)⟩

/-- C2 (counterexample): with fps = 20 and bpm = 60 the `f32` step is
`5033165/2^23 ≈ 0.60000002` — not 6 — the cycle is 600 frames — not 60 — and
`render_frame(0, …)` returns 599, not 59. -/
theorem render_frame_fps20_bpm60_cex :
    step_of 20 60 = mkRat 5033165 8388608 ∧ step_of 20 60 ≠ 6 ∧
    frame_count_of 20 60 = 600 ∧ frame_count_of 20 60 ≠ 60 ∧
    (render_frame 0 20 60 800 800).map Prod.snd = Except.ok 599 ∧ (599 : ℕ) ≠ 59 :=
  ⟨by decide, by decide, by decide, by decide, rfl, by decide⟩

/-- C2 (amended): with fps = 20 and bpm = 60 the step is the `f32` nearest to
0.6 degrees and the cycle length is 600; the return value counts down without
wrapping: frame 0 gives 599, frame 599 gives 0, and frame 600 does not wrap to
599 but panics on the underflowing subtraction. -/
theorem render_frame_fps20_bpm60_values :
    frame_count_of 20 60 = 600 ∧
    (render_frame 0 20 60 800 800).map Prod.snd = Except.ok 599 ∧
    (render_frame 599 20 60 800 800).map Prod.snd = Except.ok 0 ∧
    render_frame 600 20 60 800 800 = Except.error "attempt to subtract with overflow" :=
  ⟨by decide, rfl, rfl, rfl⟩

/-- C3 (counterexample): at frame 360 with fps = 12, bpm = 60 (step exactly 1,
cycle 360) the ring call carries rotation 360, while the claimed
`(frame mod cycle) · step` is 0. -/
theorem ring_rotation_no_mod_cex :
    (render_calls 360 12 60 800 800).head? = some (Call.ring (400, 400) 400 360 32) ∧
    f32mul (f32ofNat (360 % frame_count_of 12 60)) (step_of 12 60) = 0 ∧
    (360 : ℚ) ≠ 0 :=
  ⟨by decide, by decide, by decide⟩

/-- C3 (amended): the ring rotation is `frame as f32 * step` with no modulo
applied (it agrees with `(frame mod cycle) · step` only for
`frame < cycle_length`), and every triangle call receives exactly
`60.0 + rotation`. -/
theorem render_calls_rotation_args (frame fps bpm w h : ℕ) (c : Call)
    (hc : c ∈ render_calls frame fps bpm w h) :
    c.rotationArg =
      (if c.isTri then f32add 60 (f32mul (f32ofNat frame) (step_of fps bpm))
        else f32mul (f32ofNat frame) (step_of fps bpm)) := by
  simp only [render_calls, List.mem_cons, List.not_mem_nil, or_false] at hc
  rcases hc with rfl | rfl | rfl | rfl | rfl | rfl | rfl | rfl | rfl <;> rfl

/-- C3 (witness): the amended statement applied to the ring call of frame 0 at
fps 12, bpm 60. -/
theorem render_calls_rotation_args_witness :
    (Call.ring (400, 400) 400 (f32mul (f32ofNat 0) (step_of 12 60)) 32).rotationArg =
      (if (Call.ring (400, 400) 400 (f32mul (f32ofNat 0) (step_of 12 60)) 32).isTri
        then f32add 60 (f32mul (f32ofNat 0) (step_of 12 60))
        else f32mul (f32ofNat 0) (step_of 12 60)) :=
  render_calls_rotation_args 0 12 60 800 800 _ (by decide)

/-- C4: for positive fps and bpm, `render_frame` returns normally exactly when
`frame + 1 ≤ frame_count` (`frame_count = (360/step) as usize`, truncation);
whenever `frame + 1 > frame_count` the final `usize` subtraction underflows
and the call aborts with the arithmetic-overflow panic instead of wrapping. -/
theorem render_frame_underflow_panic (frame fps bpm w h : ℕ) (_hf : 0 < fps) (_hb : 0 < bpm) :
    ((∃ r, render_frame frame fps bpm w h = Except.ok r) ↔
      frame + 1 ≤ frame_count_of fps bpm) ∧
    (frame_count_of fps bpm < frame + 1 →
      render_frame frame fps bpm w h = Except.error "attempt to subtract with overflow") := by
  obtain ⟨ops, hops⟩ := traverseCalls_render_ok frame fps bpm w h
  unfold render_frame
  rw [hops]
  by_cases hfc : frame + 1 ≤ frame_count_of fps bpm
  · refine ⟨?_, ?_⟩
    · simp [hfc]
    · intro hlt
      omega
  · refine ⟨?_, ?_⟩
    · simp [hfc]
    · intro _
      simp [hfc]

/-- C4 (witness): at fps 12, bpm 60 the cycle is 360 frames, and the call with
frame 360 (so `frame + 1 = 361 > 360`) panics. -/
theorem render_frame_underflow_panic_witness :
    render_frame 360 12 60 800 800 = Except.error "attempt to subtract with overflow" :=
  (render_frame_underflow_panic 360 12 60 800 800 (by decide) (by decide)).2 (by decide)
